import Mathlib

/-!
Verification of the multi-provider LLM request orchestrator implemented in
src/agent_core.py (class AIAgent).  Every definition below is a shallow
embedding of the corresponding Python function; line references point into
src/agent_core.py.  Machine behaviour that the claims do not depend on
(HTTP transport, logging side effects, wall-clock timing) is represented by
explicit parameters (attempt oracles, event traces).
-/

namespace StarkAI

/-! ## Basic data model -/

/-- One conversation turn, from the history dictionaries
`{"role": ..., "content": ...}` used by AIAgent.process_message. -/
structure Msg where
  role : String
  content : String
deriving DecidableEq

/-- A ranked model descriptor, mirroring the dictionaries produced by
AIAgent._rank_models_by_parameters / AIAgent._get_fallback_models
(keys: name, api_provider, model_name, description, context_length). -/
structure RankedModel where
  name : String
  api_provider : String
  model_name : String
  description : String
  context_length : Nat
deriving DecidableEq

/-- Last `H` elements of a list: `xs.drop (xs.length - H)`. -/
def takeLast (H : Nat) (xs : List α) : List α :=
  xs.drop (xs.length - H)

/-- Python slice `xs[-H:]`.  For `H = 0` Python returns the whole list
(`xs[-0:] = xs[0:]`), otherwise the last `H` elements.  AIAgent always has
`max_history = MAX_HISTORY_LENGTH or 10`, so the `H = 0` branch is never
taken at runtime, but the slice semantics is modelled faithfully. -/
def pyTakeLast (H : Nat) (xs : List α) : List α :=
  if H = 0 then xs else takeLast H xs

/-- One history append as performed by process_message: add a turn, then
keep only the last `H` turns (lines 264-279 of src/agent_core.py append and
then truncate with the `[-self.max_history:]` slice). -/
def appendTurn (H : Nat) (hist : List Msg) (t : Msg) : List Msg :=
  pyTakeLast H (hist ++ [t])

/-! ## Error classification (AIAgent._handle_api_error, _extract_error_type) -/

/-- Python str.lower(), character by character (the marker strings the
classifier compares against are ASCII, where this agrees with Python). -/
def strLower (s : String) : String := String.mk (s.data.map Char.toLower)

/-- Substring test on character lists (Python `pat in s`). -/
def containsSubChars (pat : List Char) : List Char → Bool
  | [] => pat.isEmpty
  | c :: rest => pat.isPrefixOf (c :: rest) || containsSubChars pat rest

/-- Python membership test `pat in s` on strings. -/
def containsSub (s pat : String) : Bool :=
  containsSubChars pat.toList s.toList

/-- AIAgent._handle_api_error (src/agent_core.py lines 492-510): builds the
message of the exception raised for a non-200 HTTP response.  Note that for
statuses 429/401/402/503 the response body is discarded. -/
def handle_api_error (provider : String) (status_code : Nat) (response_text : String) : String :=
  if status_code = 429 then
    "Rate limit exceeded for " ++ provider
  else if status_code = 401 then
    "Invalid API key for " ++ provider
  else if status_code = 402 then
    "Quota exceeded for " ++ provider
  else if status_code = 503 then
    "Service unavailable for " ++ provider
  else
    provider ++ " API error " ++ toString status_code ++ ": " ++ response_text

/-- AIAgent._extract_error_type (src/agent_core.py lines 584-604): lowers
the exception text and matches marker substrings in priority order. -/
def extract_error_type (error : String) : String :=
  let s := strLower error
  if containsSub s "rate limit" || containsSub s "too many requests" then
    "rate_limit"
  else if containsSub s "quota" || containsSub s "billing" || containsSub s "daily" then
    "quota_exceeded"
  else if containsSub s "authentication" || containsSub s "invalid api key" then
    "authentication_error"
  else if containsSub s "timeout" then
    "timeout"
  else if containsSub s "network" || containsSub s "connection" then
    "network_error"
  else
    "unknown_error"

/-- The classification a (status, body) failure signal receives end to end:
_call_universal_api raises the exception built by _handle_api_error, and
_try_model_request classifies its text with _extract_error_type. -/
def classifyHttp (provider : String) (status_code : Nat) (response_text : String) : String :=
  extract_error_type (handle_api_error provider status_code response_text)

/-- The closed set of error kinds _extract_error_type can produce. -/
def errorKinds : List String :=
  ["rate_limit", "quota_exceeded", "authentication_error",
   "timeout", "network_error", "unknown_error"]

/-- The string a failed _try_model_request call returns as its response
component: f-string "Ошибка API: {str(e)}" (src/agent_core.py line 362). -/
def apiErrorResponse (provider : String) (status_code : Nat) (response_text : String) : String :=
  "Ошибка API: " ++ handle_api_error provider status_code response_text

/-! ## Conversations dictionary (AIAgent.conversations) -/

/-- The conversations dict, modelled as an association list. -/
abbrev Conversations := List (String × List Msg)

/-- Dictionary lookup, conversations.get(user_id). -/
def convGet (c : Conversations) (k : String) : Option (List Msg) :=
  match c with
  | [] => none
  | (k', v) :: rest => if k' = k then some v else convGet rest k

/-- Dictionary assignment, conversations[user_id] = v. -/
def convSet (c : Conversations) (k : String) (v : List Msg) : Conversations :=
  match c with
  | [] => [(k, v)]
  | (k', v') :: rest => if k' = k then (k, v) :: rest else (k', v') :: convSet rest k v

/-! ## Orchestrator loop (AIAgent.process_message, lines 240-295)

A candidate attempt is represented by an oracle
attempt : RankedModel → String × Bool giving, for each model, the
(response, success) pair that AIAgent._try_model_request would return for
it in this request cycle (_try_model_request never raises: it catches every
exception and returns (error text, False), lines 342-362). -/

/-- The for-loop of process_message (lines 267-290): walk the ranking in
order; return the first successful response; None when every model fails
(the code then returns the generic unavailable message). -/
def tryModels (attempt : RankedModel → String × Bool) : List RankedModel → Option String
  | [] => none
  | m :: rest =>
    if (attempt m).2 then some (attempt m).1 else tryModels attempt rest

/-- The sequence of candidates the loop actually contacts, in order.  Each
loop iteration performs exactly one _try_model_request call, which performs
at most one HTTP call to the provider. -/
def attemptTrace (attempt : RankedModel → String × Bool) : List RankedModel → List RankedModel
  | [] => []
  | m :: rest =>
    m :: (if (attempt m).2 then [] else attemptTrace attempt rest)

/-- Observable orchestration events: a provider call for a candidate, or a
sleep.  process_message sleeps only in _rate_limit_protection (before the
loop); the loop body contains no sleep at all. -/
inductive OrchEvent where
  | attemptCall (m : RankedModel)
  | sleepWait (ms : Nat)
deriving DecidableEq

/-- Events emitted by the candidate loop: one attemptCall per contacted
candidate and nothing else (the loop body of lines 267-290 contains no
sleep between a failure and the next attempt). -/
def loopEvents (attempt : RankedModel → String × Bool) : List RankedModel → List OrchEvent
  | [] => []
  | m :: rest =>
    OrchEvent.attemptCall m :: (if (attempt m).2 then [] else loopEvents attempt rest)

/-- AIAgent._rate_limit_protection (lines 627-641): sleeps once, before the
candidate loop, when the previous request was too recent. -/
def rateLimitProtectionEvents (time_since_last min_request_interval : Nat) : List OrchEvent :=
  if time_since_last < min_request_interval then
    [OrchEvent.sleepWait (min_request_interval - time_since_last)]
  else []

/-- All events of one process_message cycle: the optional pre-loop sleep
followed by the loop's provider calls. -/
def cycleEvents (time_since_last min_request_interval : Nat)
    (attempt : RankedModel → String × Bool) (ranking : List RankedModel) : List OrchEvent :=
  rateLimitProtectionEvents time_since_last min_request_interval ++ loopEvents attempt ranking

/-- The fixed message returned when every model in the rotation failed
(src/agent_core.py line 288). -/
def allUnavailableMsg : String :=
  "❌ Все модели временно недоступны. Попробуйте позже."

/-- The user turn appended in line 265. -/
def userTurn (message : String) : Msg := Msg.mk "user" message

/-- The assistant turn appended in line 278. -/
def assistantTurn (response : String) : Msg := Msg.mk "assistant" response

/-- Session-key initialization in process_message (lines 259-261): an
absent key is bound to the empty history before the loop runs. -/
def convInit (convs : Conversations) (user_id : String) : Conversations :=
  match convGet convs user_id with
  | some _ => convs
  | none => convSet convs user_id []

/-- The state-relevant body of AIAgent.process_message (lines 259-290):
create the session key if absent, build the working history from the last
max_history stored turns plus the new user turn, walk the ranking, and on
success store the working history plus the assistant turn truncated to the
last max_history turns; on exhaustion return the generic message leaving
the stored history untouched. -/
def process_message (convs : Conversations) (max_history : Nat)
    (user_id message : String) (ranking : List RankedModel)
    (attempt : RankedModel → String × Bool) : String × Conversations :=
  let convs1 := convInit convs user_id
  let current := pyTakeLast max_history ((convGet convs1 user_id).getD []) ++ [userTurn message]
  match tryModels attempt ranking with
  | some response =>
    (response, convSet convs1 user_id (pyTakeLast max_history (current ++ [assistantTurn response])))
  | none => (allUnavailableMsg, convs1)

/-- The generic message of the top-level exception handler of
process_message (src/agent_core.py line 293): f-string
"❌ Системная ошибка обработки сообщения: {str(e)}". -/
def systemErrorMessage (e : String) : String :=
  "❌ Системная ошибка обработки сообщения: " ++ e

/-- The outermost try/except of process_message (lines 249-295): the whole
body — lazy initialization, history handling and the candidate loop — runs
inside one try; the body is therefore a fallible computation of the final
reply, and any exception it raises is converted into the generic system
error message. -/
def process_message_top (body : String → String → Except String String)
    (user_id message : String) : String :=
  match body user_id message with
  | Except.ok s => s
  | Except.error e => systemErrorMessage e

/-! ## Token estimator (AIAgent._estimate_tokens_fallback) -/

/-- AIAgent._estimate_tokens_fallback (src/agent_core.py lines 572-582):
0 for empty text, otherwise max(len(text) // 3, 1). -/
def estimate_tokens_fallback (text : String) : Nat :=
  if text = "" then 0 else max (text.length / 3) 1

/-! ## Model catalog loading (AIAgent._load_free_models_ranking and helpers) -/

/-- A JSON pricing value as tested by _filter_free_models:
the string "0", a number, or null/absent. -/
inductive PVal where
  | jstr (s : String)
  | jnum (n : Int)
  | jnull
deriving DecidableEq, BEq

/-- A raw catalog entry as consumed by _filter_free_models and
_rank_models_by_parameters: id, description (default empty), context_length
(default 0) and pricing.prompt (jnull when pricing or prompt is absent). -/
structure RawModel where
  id : String
  description : String
  context_length : Nat
  pricing_prompt : PVal
deriving DecidableEq

/-- The is_free test of _filter_free_models (lines 148-152):
pricing.get('prompt') == "0" or == 0 or is None. -/
def isFreeModel (m : RawModel) : Bool :=
  m.pricing_prompt == PVal.jstr "0" || m.pricing_prompt == PVal.jnum 0
    || m.pricing_prompt == PVal.jnull

/-- AIAgent._filter_free_models (lines 140-166): keep models that are free
and have a non-empty description (the is_active flag is computed in the
source but not used in the condition). -/
def filter_free_models (models : List RawModel) : List RawModel :=
  models.filter (fun m => isFreeModel m && !(m.description == ""))

/-- Python's \w character class (letters, digits, underscore; ASCII view). -/
def wordChar (c : Char) : Bool := c.isAlphanum || c = '_'

/-- Digits to number, int(match.group(1)). -/
def digitsToNat (ds : List Char) : Nat :=
  ds.foldl (fun n c => n * 10 + (c.toNat - 48)) 0

/-- Leftmost match of the pattern (\d+)b\b used by get_model_parameters:
a maximal digit run immediately followed by the letter b at a word
boundary.  The accumulator holds the digit run read so far. -/
def scanParamB : List Char → List Char → Option Nat
  | [], _ => none
  | c :: rest, acc =>
    if c.isDigit then scanParamB rest (acc ++ [c])
    else if c = 'b' && !acc.isEmpty
        && (match rest.head? with | none => true | some t => !(wordChar t)) then
      some (digitsToNat acc)
    else scanParamB rest []

/-- Leftmost match of (\d+)b\s+parameters (second pattern of
get_model_parameters). -/
def scanParamBParams : List Char → List Char → Option Nat
  | [], _ => none
  | c :: rest, acc =>
    if c.isDigit then scanParamBParams rest (acc ++ [c])
    else if c = 'b' && !acc.isEmpty
        && (match rest.head? with | some t => t.isWhitespace | none => false)
        && "parameters".toList.isPrefixOf (rest.dropWhile Char.isWhitespace) then
      some (digitsToNat acc)
    else scanParamBParams rest []

/-- Leftmost match of (\d+)\s+billion (third pattern of
get_model_parameters). -/
def scanBillion : List Char → List Char → Option Nat
  | [], _ => none
  | c :: rest, acc =>
    if c.isDigit then scanBillion rest (acc ++ [c])
    else if c.isWhitespace && !acc.isEmpty
        && "billion".toList.isPrefixOf (rest.dropWhile Char.isWhitespace) then
      some (digitsToNat acc)
    else scanBillion rest []

/-- get_model_parameters (lines 175-194): search the lowercased description
for the three parameter patterns in order, scaling the matched count by
1_000_000_000; fall back to context_length. -/
def getModelParameters (m : RawModel) : Nat :=
  let description := strLower m.description
  match scanParamB description.toList [] with
  | some n => n * 1000000000
  | none =>
    match scanParamBParams description.toList [] with
    | some n => n * 1000000000
    | none =>
      match scanBillion description.toList [] with
      | some n => n * 1000000000
      | none => m.context_length

/-- get_model_score (lines 196-202): (parameters, context_length,
provider_priority) with priority 2 for deepseek ids. -/
def getModelScore (m : RawModel) : Nat × Nat × Nat :=
  (getModelParameters m, m.context_length,
   if containsSub (strLower m.id) "deepseek" then 2 else 1)

/-- Lexicographic strict order on score triples (Python tuple <). -/
def tripleLt (a b : Nat × Nat × Nat) : Bool :=
  Nat.blt a.1 b.1
    || (Nat.beq a.1 b.1
        && (Nat.blt a.2.1 b.2.1 || (Nat.beq a.2.1 b.2.1 && Nat.blt a.2.2 b.2.2)))

/-- Insert a model into a descending-sorted list, before the first element
of not-larger score (stable descending insertion, matching Python's stable
sorted(..., reverse=True)). -/
def insertDescending (m : RawModel) : List RawModel → List RawModel
  | [] => [m]
  | x :: xs =>
    if tripleLt (getModelScore m) (getModelScore x) then x :: insertDescending m xs
    else m :: x :: xs

/-- sorted(models, key=get_model_score, reverse=True). -/
def sortDescending : List RawModel → List RawModel
  | [] => []
  | m :: rest => insertDescending m (sortDescending rest)

/-- Conversion into the agent_core dictionary format (lines 208-216). -/
def toRankedModel (m : RawModel) : RankedModel :=
  RankedModel.mk m.id "openrouter" m.id m.description m.context_length

/-- AIAgent._rank_models_by_parameters (lines 168-218). -/
def rank_models_by_parameters (models : List RawModel) : List RankedModel :=
  (sortDescending models).map toRankedModel

/-- AIAgent._get_fallback_models (lines 220-238): the fixed, hard-coded
reserve candidate list. -/
def get_fallback_models : List RankedModel :=
  [RankedModel.mk "deepseek/deepseek-chat" "deepseek" "deepseek-chat"
     "DeepSeek Chat (67B) - резервная модель" 8192,
   RankedModel.mk "google/gemma-7b-it" "openrouter" "google/gemma-7b-it"
     "Google Gemma 7B - резервная модель" 8192]

/-- AIAgent._load_free_models_ranking (lines 78-113).  The fetched catalog
is an Except value: error when _fetch_models_from_openrouter (or anything
in the try body) raised.  Inside the try, an empty catalog and an empty
filtered list both raise, and every raise is caught by the except clause
which installs the fallback models. -/
def load_free_models_ranking (fetched : Except String (List RawModel)) : List RankedModel :=
  match fetched with
  | Except.error _ => get_fallback_models
  | Except.ok models =>
    if models = [] then get_fallback_models
    else
      let free := filter_free_models models
      if free = [] then get_fallback_models
      else rank_models_by_parameters free

/-! ## Repeated successful cycles (for the bounded-history claim) -/

/-- Run one successful request cycle per (message, response) pair through
process_message, with an attempt oracle that succeeds with the given
response (first candidate answers). -/
def successAttempt (response : String) : RankedModel → String × Bool :=
  fun _ => (response, true)

/-- Iterate process_message over a list of (message, response) cycles,
threading the conversations dictionary. -/
def runCycles (max_history : Nat) (user_id : String) (mdl : RankedModel) :
    List (String × String) → Conversations → Conversations
  | [], convs => convs
  | (message, response) :: rest, convs =>
    runCycles max_history user_id mdl rest
      (process_message convs max_history user_id message [mdl] (successAttempt response)).2

/-- The chronological stream of turns the cycles append: one user turn and
one assistant turn per cycle. -/
def turnStream : List (String × String) → List Msg
  | [] => []
  | (message, response) :: rest =>
    userTurn message :: assistantTurn response :: turnStream rest

/-! ## Helper lemmas -/

lemma takeLast_nil (H : Nat) : takeLast H ([] : List α) = [] := by
  unfold takeLast
  simp

lemma length_takeLast (H : Nat) (xs : List α) :
    (takeLast H xs).length = min xs.length H := by
  unfold takeLast
  rw [List.length_drop]
  omega

lemma takeLast_of_le (H : Nat) (xs : List α) (h : xs.length ≤ H) :
    takeLast H xs = xs := by
  unfold takeLast
  rw [Nat.sub_eq_zero_of_le h, List.drop_zero]

lemma takeLast_idem_append (H : Nat) (xs ys : List α) :
    takeLast H (takeLast H xs ++ ys) = takeLast H (xs ++ ys) := by
  rcases Nat.le_total xs.length H with h | h
  · rw [takeLast_of_le H xs h]
  · unfold takeLast
    have h1 : (xs.drop (xs.length - H)).length = H := by
      rw [List.length_drop]; omega
    have h2 : (xs.drop (xs.length - H) ++ ys).length - H = ys.length := by
      rw [List.length_append, h1]; omega
    have h3 : (xs ++ ys).length - H = (xs.length - H) + ys.length := by
      rw [List.length_append]; omega
    rw [h2, h3]
    have h4 : (xs ++ ys).drop (xs.length - H + ys.length)
        = ((xs ++ ys).drop (xs.length - H)).drop ys.length := by
      rw [List.drop_drop]
    have h5 : (xs ++ ys).drop (xs.length - H) = xs.drop (xs.length - H) ++ ys :=
      List.drop_append_of_le_length (by omega)
    rw [h4, h5]

lemma pyTakeLast_eq (H : Nat) (h : 1 ≤ H) (xs : List α) :
    pyTakeLast H xs = takeLast H xs := by
  unfold pyTakeLast
  rw [if_neg (by omega)]

lemma convGet_convSet_self (c : Conversations) (k : String) (v : List Msg) :
    convGet (convSet c k v) k = some v := by
  induction c with
  | nil => simp [convSet, convGet]
  | cons p rest ih =>
    obtain ⟨k', v'⟩ := p
    by_cases h : k' = k
    · simp [convSet, convGet, h]
    · simp [convSet, convGet, h, ih]

lemma convGet_convSet_other (c : Conversations) (k k2 : String) (v : List Msg)
    (h : k2 ≠ k) : convGet (convSet c k v) k2 = convGet c k2 := by
  induction c with
  | nil => simp [convSet, convGet, Ne.symm h]
  | cons p rest ih =>
    obtain ⟨k', v'⟩ := p
    by_cases hk : k' = k
    · subst hk
      simp [convSet, convGet, Ne.symm h]
    · simp [convSet, convGet, hk, ih]

lemma attemptTrace_isPrefix (attempt : RankedModel → String × Bool) :
    ∀ l : List RankedModel, attemptTrace attempt l <+: l := by
  intro l
  induction l with
  | nil => exact List.nil_prefix
  | cons m rest ih =>
    by_cases h : (attempt m).2
    · simp only [attemptTrace, h, if_pos]
      exact ⟨rest, rfl⟩
    · simp only [attemptTrace, h, if_neg, Bool.false_eq_true, ite_false]
      obtain ⟨t, ht⟩ := ih
      exact ⟨t, by rw [List.cons_append, ht]⟩

lemma loopEvents_eq_map (attempt : RankedModel → String × Bool) :
    ∀ l : List RankedModel,
      loopEvents attempt l = (attemptTrace attempt l).map OrchEvent.attemptCall := by
  intro l
  induction l with
  | nil => rfl
  | cons m rest ih =>
    by_cases h : (attempt m).2 <;> simp [loopEvents, attemptTrace, h, ih]

lemma length_insertDescending (m : RawModel) (l : List RawModel) :
    (insertDescending m l).length = l.length + 1 := by
  induction l with
  | nil => rfl
  | cons x xs ih =>
    by_cases h : tripleLt (getModelScore m) (getModelScore x)
    <;> simp [insertDescending, h, ih]

lemma length_sortDescending (l : List RawModel) :
    (sortDescending l).length = l.length := by
  induction l with
  | nil => rfl
  | cons m rest ih => simp [sortDescending, length_insertDescending, ih]

lemma takeLast_takeLast (H : Nat) (xs : List α) :
    takeLast H (takeLast H xs) = takeLast H xs := by
  apply takeLast_of_le
  rw [length_takeLast]
  omega

lemma convGet_convInit_self (convs : Conversations) (uid : String) :
    convGet (convInit convs uid) uid = some ((convGet convs uid).getD []) := by
  unfold convInit
  cases h : convGet convs uid with
  | some v => simp [h]
  | none => simp [convGet_convSet_self]

lemma convGet_convInit_other (convs : Conversations) (uid k : String) (h : k ≠ uid) :
    convGet (convInit convs uid) k = convGet convs k := by
  unfold convInit
  cases hh : convGet convs uid with
  | some v => rfl
  | none => exact convGet_convSet_other convs uid k [] h

lemma tryModels_successAttempt (response : String) (mdl : RankedModel) :
    tryModels (successAttempt response) [mdl] = some response := rfl

lemma runCycles_get (H : Nat) (uid : String) (mdl : RankedModel) (hH : 1 ≤ H) :
    ∀ (pairs : List (String × String)) (convs : Conversations) (xs : List Msg),
      (convGet convs uid).getD [] = takeLast H xs →
      (convGet (runCycles H uid mdl pairs convs) uid).getD []
        = takeLast H (xs ++ turnStream pairs) := by
  intro pairs
  induction pairs with
  | nil =>
    intro convs xs hconvs
    simpa [runCycles, turnStream] using hconvs
  | cons p rest ih =>
    intro convs xs hconvs
    obtain ⟨message, response⟩ := p
    show (convGet (runCycles H uid mdl rest
        (process_message convs H uid message [mdl] (successAttempt response)).2) uid).getD []
      = takeLast H (xs ++ turnStream ((message, response) :: rest))
    have hstep : convGet (process_message convs H uid message [mdl] (successAttempt response)).2 uid
        = some (takeLast H (xs ++ [userTurn message, assistantTurn response])) := by
      simp only [process_message, tryModels_successAttempt]
      rw [convGet_convSet_self, convGet_convInit_self, hconvs,
        pyTakeLast_eq H hH, pyTakeLast_eq H hH]
      simp only [Option.getD_some]
      rw [takeLast_takeLast]
      rw [List.append_assoc]
      rw [takeLast_idem_append]
      rfl
    have := ih (process_message convs H uid message [mdl] (successAttempt response)).2
      (xs ++ [userTurn message, assistantTurn response]) (by rw [hstep]; rfl)
    rw [this]
    simp [turnStream]

lemma tryModels_none (attempt : RankedModel → String × Bool)
    (hall : ∀ m, (attempt m).2 = false) :
    ∀ l : List RankedModel, tryModels attempt l = none := by
  intro l
  induction l with
  | nil => rfl
  | cons m rest ih => simp [tryModels, hall m, ih]

lemma eq_empty_of_length_zero (s : String) (h : s.length = 0) : s = "" :=
  String.ext (List.length_eq_zero.mp h)

/-! ## Concrete instances used by witnesses and counterexamples -/

/-- A sample first-ranked candidate. -/
def modelA : RankedModel :=
  RankedModel.mk "model-a" "openrouter" "model-a" "Test model A" 4096

/-- A sample second-ranked candidate. -/
def modelB : RankedModel :=
  RankedModel.mk "model-b" "openrouter" "model-b" "Test model B" 4096

/-- Attempt oracle where the first candidate fails with the HTTP 401
failure of _handle_api_error and the second succeeds. -/
def authFailAttempt : RankedModel → String × Bool := fun m =>
  if m.name = "model-a" then (apiErrorResponse "openrouter" 401 "Unauthorized", false)
  else ("hi there", true)

/-- Attempt oracle where every candidate fails with the HTTP 401 failure. -/
def allAuthFailAttempt : RankedModel → String × Bool :=
  fun _ => (apiErrorResponse "openrouter" 401 "Unauthorized", false)

/-- Attempt oracle where the first candidate fails with the HTTP 429
failure of _handle_api_error and the second succeeds. -/
def rateLimitFailAttempt : RankedModel → String × Bool := fun m =>
  if m.name = "model-a" then (apiErrorResponse "openrouter" 429 "rate limited", false)
  else ("hi there", true)

/-- A sample conversation store holding one prior exchange for key u1. -/
def convs0 : Conversations :=
  [("u1", [Msg.mk "user" "old question", Msg.mk "assistant" "old answer"])]

/-- Two successful request cycles. -/
def samplePairs : List (String × String) := [("q1", "a1"), ("q2", "a2")]

/-! ## Claim theorems -/

/-- C1 (counterexample).  The claim says a first-candidate failure coming
from HTTP 401 stops the walk so that the second candidate is never
attempted and a fixed kind-specific message is returned.  In the code the
second candidate IS attempted after the 401-classified failure of the
first, and the reply is the second model's answer, not an abort message. -/
theorem claim1_counterexample :
    modelB ∈ attemptTrace authFailAttempt [modelA, modelB] ∧
    tryModels authFailAttempt [modelA, modelB] = some "hi there" ∧
    (process_message [] 10 "u1" "hello" [modelA, modelB] authFailAttempt).1 = "hi there" := by
  refine ⟨by decide, by decide, by decide⟩

/-- C1 (amended).  When the first candidate fails with an account-level
error — the exception _handle_api_error builds for HTTP 401 — the
orchestrator does not stop: the second candidate is attempted like after
any other failure, and no kind-specific message exists: when every
candidate fails, process_message returns the one generic unavailable
message. -/
theorem claim1_account_error_advances
    (attempt : RankedModel → String × Bool) (m1 m2 : RankedModel)
    (rest : List RankedModel) (provider body : String)
    (hp : provider = "openrouter" ∨ provider = "deepseek")
    (h1 : attempt m1 = (apiErrorResponse provider 401 body, false)) :
    m2 ∈ attemptTrace attempt (m1 :: m2 :: rest) ∧
    extract_error_type (handle_api_error provider 401 body) = "authentication_error" ∧
    ((∀ m, (attempt m).2 = false) → ∀ (convs : Conversations) (H : Nat) (uid msg : String),
      (process_message convs H uid msg (m1 :: m2 :: rest) attempt).1 = allUnavailableMsg) := by
  have h1' : (attempt m1).2 = false := by rw [h1]
  refine ⟨?_, ?_, ?_⟩
  · simp [attemptTrace, h1']
  · rcases hp with hp | hp <;> subst hp
    · rw [show handle_api_error "openrouter" 401 body
          = "Invalid API key for openrouter" from rfl]
      decide
    · rw [show handle_api_error "deepseek" 401 body
          = "Invalid API key for deepseek" from rfl]
      decide
  · intro hall convs H uid msg
    simp [process_message, tryModels_none attempt hall]

/-- C1 (witness): the amended theorem applied to a concrete two-candidate
run whose every attempt fails with the 401 failure. -/
theorem claim1_witness :
    modelB ∈ attemptTrace allAuthFailAttempt [modelA, modelB] ∧
    extract_error_type (handle_api_error "openrouter" 401 "Unauthorized")
      = "authentication_error" ∧
    (process_message [] 10 "u1" "hello" [modelA, modelB] allAuthFailAttempt).1
      = allUnavailableMsg := by
  have h := claim1_account_error_advances allAuthFailAttempt modelA modelB []
    "openrouter" "Unauthorized" (Or.inl rfl) rfl
  exact ⟨h.1, h.2.1, h.2.2 (fun m => rfl) [] 10 "u1" "hello"⟩

/-- C2 (counterexample).  The claim says a candidate failing with the
per-minute (HTTP 429) classification is retried once after a wait, i.e.
2 calls are issued to it.  In the code the candidate is called exactly
once — not twice — its failure is classified rate_limit, and the loop
emits no sleep event between its failure and the next attempt. -/
theorem claim2_counterexample :
    List.count modelA (attemptTrace rateLimitFailAttempt [modelA, modelB]) = 1 ∧
    List.count modelA (attemptTrace rateLimitFailAttempt [modelA, modelB]) ≠ 2 ∧
    extract_error_type (handle_api_error "openrouter" 429 "rate limited") = "rate_limit" ∧
    loopEvents rateLimitFailAttempt [modelA, modelB]
      = [OrchEvent.attemptCall modelA, OrchEvent.attemptCall modelB] := by
  refine ⟨by decide, by decide, by decide, by decide⟩

/-- C2 (amended).  A candidate whose attempt fails with the HTTP 429
failure of _handle_api_error is contacted exactly once in the request
cycle — no wait, no retry — and the loop advances directly to the
remaining candidates. -/
theorem claim2_single_call_no_retry
    (attempt : RankedModel → String × Bool) (m : RankedModel)
    (rest : List RankedModel) (provider body : String)
    (h1 : attempt m = (apiErrorResponse provider 429 body, false))
    (h2 : m ∉ rest) :
    List.count m (attemptTrace attempt (m :: rest)) = 1 ∧
    loopEvents attempt (m :: rest) = OrchEvent.attemptCall m :: loopEvents attempt rest := by
  have h1' : (attempt m).2 = false := by rw [h1]
  constructor
  · have hnot : m ∉ attemptTrace attempt rest := fun hmem =>
      h2 ((attemptTrace_isPrefix attempt rest).subset hmem)
    simp [attemptTrace, h1', List.count_cons_self, List.count_eq_zero.mpr hnot]
  · simp [loopEvents, h1']

/-- C2 (witness): the amended theorem applied to the concrete 429 run. -/
theorem claim2_witness :
    List.count modelA (attemptTrace rateLimitFailAttempt [modelA, modelB]) = 1 ∧
    loopEvents rateLimitFailAttempt [modelA, modelB]
      = OrchEvent.attemptCall modelA :: loopEvents rateLimitFailAttempt [modelB] :=
  claim2_single_call_no_retry rateLimitFailAttempt modelA [modelB]
    "openrouter" "rate limited" rfl (by decide)

/-- C3.  process_message always hands a plain string back to the caller:
its whole body runs inside one try/except, so a body that raises an
exception e yields the generic system-error string built from e, and a
body that completes yields its result unchanged; no exception escapes. -/
theorem claim3_always_returns_string
    (body : String → String → Except String String) (user_id message : String) :
    (∀ e, body user_id message = Except.error e →
      process_message_top body user_id message = systemErrorMessage e) ∧
    (∀ s, body user_id message = Except.ok s →
      process_message_top body user_id message = s) := by
  constructor <;> intro x hx <;> simp [process_message_top, hx]

/-- C3 (witness): a body that raises is converted into the generic
system-error message. -/
theorem claim3_witness :
    process_message_top (fun _ _ => Except.error "boom") "u1" "hello"
      = systemErrorMessage "boom" :=
  (claim3_always_returns_string (fun _ _ => Except.error "boom") "u1" "hello").1 "boom" rfl

/-- C4.  Bounded history: after any sequence of successful request cycles
against a session (each cycle appending a user turn and an assistant turn),
the stored turn sequence is exactly the most recent turns of the
chronological stream in order, its length is min(N, H) for N appended
turns, and it never exceeds H. -/
theorem claim4_bounded_history (pairs : List (String × String)) (H : Nat)
    (uid : String) (mdl : RankedModel) (hH : 1 ≤ H) :
    (convGet (runCycles H uid mdl pairs []) uid).getD []
      = (turnStream pairs).drop ((turnStream pairs).length - H) ∧
    ((convGet (runCycles H uid mdl pairs []) uid).getD []).length
      = min (turnStream pairs).length H ∧
    ((convGet (runCycles H uid mdl pairs []) uid).getD []).length ≤ H := by
  have h := runCycles_get H uid mdl hH pairs [] []
    (by rw [takeLast_nil]; rfl)
  simp only [List.nil_append] at h
  refine ⟨h, ?_, ?_⟩
  · rw [h]
    exact length_takeLast H (turnStream pairs)
  · rw [h, show takeLast H (turnStream pairs)
      = (turnStream pairs).drop ((turnStream pairs).length - H) from rfl,
      List.length_drop]
    omega

/-- C4 (witness): two cycles against limit 3 keep the last 3 turns. -/
theorem claim4_witness :
    (convGet (runCycles 3 "u1" modelA samplePairs []) "u1").getD []
      = (turnStream samplePairs).drop ((turnStream samplePairs).length - 3) ∧
    ((convGet (runCycles 3 "u1" modelA samplePairs []) "u1").getD []).length
      = min (turnStream samplePairs).length 3 ∧
    ((convGet (runCycles 3 "u1" modelA samplePairs []) "u1").getD []).length ≤ 3 :=
  claim4_bounded_history samplePairs 3 "u1" modelA (by decide)

/-- C5.  A request cycle that never succeeds leaves the stored history of
the session key without any new turn (the key itself is created empty if
absent) and returns the generic unavailable message; a successful cycle is
the only case that stores, and it stores the user turn and the assistant
turn together in one update. -/
theorem claim5_persist_only_on_success
    (convs : Conversations) (H : Nat) (uid msg : String)
    (ranking : List RankedModel) (attempt : RankedModel → String × Bool) :
    (tryModels attempt ranking = none →
      convGet (process_message convs H uid msg ranking attempt).2 uid
        = some ((convGet convs uid).getD []) ∧
      (∀ k, k ≠ uid → convGet (process_message convs H uid msg ranking attempt).2 k
        = convGet convs k) ∧
      (process_message convs H uid msg ranking attempt).1 = allUnavailableMsg) ∧
    (∀ response, tryModels attempt ranking = some response →
      convGet (process_message convs H uid msg ranking attempt).2 uid
        = some (pyTakeLast H (pyTakeLast H ((convGet convs uid).getD [])
            ++ [userTurn msg, assistantTurn response]))) := by
  constructor
  · intro h
    refine ⟨?_, ?_, ?_⟩
    · simp [process_message, h, convGet_convInit_self]
    · intro k hk
      simp [process_message, h, convGet_convInit_other convs uid k hk]
    · simp [process_message, h]
  · intro response h
    simp only [process_message, h]
    rw [convGet_convSet_self, convGet_convInit_self]
    simp [List.append_assoc]

/-- C5 (witness): a run where every candidate fails leaves the prior
history of u1 untouched and returns the generic message. -/
theorem claim5_witness :
    convGet (process_message convs0 10 "u1" "hello" [modelA, modelB] allAuthFailAttempt).2 "u1"
      = some ((convGet convs0 "u1").getD []) ∧
    (process_message convs0 10 "u1" "hello" [modelA, modelB] allAuthFailAttempt).1
      = allUnavailableMsg := by
  have h := (claim5_persist_only_on_success convs0 10 "u1" "hello"
    [modelA, modelB] allAuthFailAttempt).1 (by decide)
  exact ⟨h.1, h.2.2⟩

/-- C6 (counterexample).  The claim says a 429 failure whose body mentions
a daily-quota marker is classified as a distinct daily kind, and that 500
or 503 map to a server-error kind.  In the code _handle_api_error discards
the body for status 429, so a daily-quota body is classified exactly like
any other 429 body — rate_limit, not the quota/daily kind — and 503 and a
plain 500 both classify as unknown_error; no server-error kind exists. -/
theorem claim6_counterexample :
    classifyHttp "openrouter" 429 "You have exceeded your daily quota" = "rate_limit" ∧
    classifyHttp "openrouter" 429 "slow down" = "rate_limit" ∧
    classifyHttp "openrouter" 429 "You have exceeded your daily quota" ≠ "quota_exceeded" ∧
    classifyHttp "openrouter" 503 "Service Unavailable" = "unknown_error" ∧
    classifyHttp "openrouter" 500 "Internal Server Error" = "unknown_error" := by
  refine ⟨by decide, by decide, by decide, by decide, by decide⟩

/-- C6 (amended).  End-to-end classification of an HTTP failure ignores
the body for status 429 and 503: every 429 failure — daily-quota marker or
not — classifies as rate_limit, and every 503 failure classifies as
unknown_error (there is no server-error kind); a 500 failure keeps the
body in the message, classifying by its markers, and a marker-free 500
also yields unknown_error. -/
theorem claim6_classification_by_status (body : String) :
    classifyHttp "openrouter" 429 body = "rate_limit" ∧
    classifyHttp "deepseek" 429 body = "rate_limit" ∧
    classifyHttp "openrouter" 503 body = "unknown_error" ∧
    classifyHttp "deepseek" 503 body = "unknown_error" ∧
    classifyHttp "openrouter" 500 "Internal Server Error" = "unknown_error" := by
  refine ⟨?_, ?_, ?_, ?_, by decide⟩
  · rw [show classifyHttp "openrouter" 429 body
      = extract_error_type "Rate limit exceeded for openrouter" from rfl]
    decide
  · rw [show classifyHttp "deepseek" 429 body
      = extract_error_type "Rate limit exceeded for deepseek" from rfl]
    decide
  · rw [show classifyHttp "openrouter" 503 body
      = extract_error_type "Service unavailable for openrouter" from rfl]
    decide
  · rw [show classifyHttp "deepseek" 503 body
      = extract_error_type "Service unavailable for deepseek" from rfl]
    decide

/-- C7.  Classification is total: for every exception text — in particular
for the text built from any (status, body) failure signal — the classifier
returns exactly one member of its closed kind list and cannot throw
(it is a total function by construction); an input matching none of the
marker rules falls into unknown_error. -/
theorem claim7_total_classification (e provider body : String) (status : Nat) :
    extract_error_type e ∈ errorKinds ∧
    classifyHttp provider status body ∈ errorKinds ∧
    (containsSub (strLower e) "rate limit" = false →
     containsSub (strLower e) "too many requests" = false →
     containsSub (strLower e) "quota" = false →
     containsSub (strLower e) "billing" = false →
     containsSub (strLower e) "daily" = false →
     containsSub (strLower e) "authentication" = false →
     containsSub (strLower e) "invalid api key" = false →
     containsSub (strLower e) "timeout" = false →
     containsSub (strLower e) "network" = false →
     containsSub (strLower e) "connection" = false →
     extract_error_type e = "unknown_error") := by
  have hmem : ∀ s : String, extract_error_type s ∈ errorKinds := by
    intro s
    unfold extract_error_type errorKinds
    dsimp only
    split_ifs <;> simp
  refine ⟨hmem e, hmem _, ?_⟩
  intro h1 h2 h3 h4 h5 h6 h7 h8 h9 h10
  simp [extract_error_type, h1, h2, h3, h4, h5, h6, h7, h8, h9, h10]

/-- C7 (witness): a marker-free input classifies as unknown_error, inside
the closed kind list. -/
theorem claim7_witness :
    extract_error_type "boom" ∈ errorKinds ∧
    extract_error_type "boom" = "unknown_error" := by
  have h := claim7_total_classification "boom" "openrouter" "teapot" 418
  exact ⟨h.1, h.2.2 (by decide) (by decide) (by decide) (by decide) (by decide)
    (by decide) (by decide) (by decide) (by decide) (by decide)⟩

/-- C8.  Lazy initialization never ends with zero candidates: when the
catalog fetch raises, and when it yields a list with no usable (free,
described) model, the ranking becomes the fixed hard-coded fallback list;
and whatever the fetch outcome, the resulting ranking is non-empty. -/
theorem claim8_fallback_nonempty :
    (∀ e, load_free_models_ranking (Except.error e) = get_fallback_models) ∧
    (∀ ms, filter_free_models ms = [] →
      load_free_models_ranking (Except.ok ms) = get_fallback_models) ∧
    (∀ fetched, load_free_models_ranking fetched ≠ []) := by
  refine ⟨fun e => rfl, ?_, ?_⟩
  · intro ms h
    unfold load_free_models_ranking
    by_cases h1 : ms = []
    · simp [h1]
    · simp [h1, h]
  · intro fetched
    cases fetched with
    | error e => simp [load_free_models_ranking, get_fallback_models]
    | ok ms =>
      unfold load_free_models_ranking
      by_cases h1 : ms = []
      · simp [h1, get_fallback_models]
      · by_cases h2 : filter_free_models ms = []
        · simp [h1, h2, get_fallback_models]
        · simp only [h1, h2, if_false, if_neg]
          intro hE
          have hlen : (rank_models_by_parameters (filter_free_models ms)).length
              = (filter_free_models ms).length := by
            simp [rank_models_by_parameters, length_sortDescending]
          rw [hE] at hlen
          exact h2 (List.length_eq_zero.mp hlen.symm)

/-- C8 (witness): concrete fetch failure and empty catalog both produce
the non-empty fallback list. -/
theorem claim8_witness :
    load_free_models_ranking (Except.error "network down") = get_fallback_models ∧
    load_free_models_ranking (Except.ok []) = get_fallback_models ∧
    load_free_models_ranking (Except.error "network down") ≠ [] := by
  have h := claim8_fallback_nonempty
  exact ⟨h.1 "network down", h.2.1 [] rfl, h.2.2 (Except.error "network down")⟩

/-- C9.  The token estimator returns 0 on the empty string, at least 1 on
every non-empty string, and is monotone in text length. -/
theorem claim9_estimator_props :
    estimate_tokens_fallback "" = 0 ∧
    (∀ t : String, t ≠ "" → 1 ≤ estimate_tokens_fallback t) ∧
    (∀ s t : String, s.length ≤ t.length →
      estimate_tokens_fallback s ≤ estimate_tokens_fallback t) := by
  refine ⟨rfl, ?_, ?_⟩
  · intro t ht
    simp only [estimate_tokens_fallback, ht, if_false, if_neg]
    exact Nat.le_max_right _ _
  · intro s t h
    by_cases hs : s = ""
    · simp [estimate_tokens_fallback, hs]
    · have ht : t ≠ "" := by
        intro he
        subst he
        exact hs (eq_empty_of_length_zero s (Nat.le_zero.mp h))
      simp only [estimate_tokens_fallback, hs, ht, if_false, if_neg]
      exact max_le_max (Nat.div_le_div_right h) (le_refl 1)

/-- C9 (witness): the estimator properties at concrete strings. -/
theorem claim9_witness :
    1 ≤ estimate_tokens_fallback "a" ∧
    estimate_tokens_fallback "ab" ≤ estimate_tokens_fallback "abcdef" := by
  have h := claim9_estimator_props
  exact ⟨h.2.1 "a" (by decide), h.2.2 "ab" "abcdef" (by decide)⟩

/-- C10.  One request cycle contacts candidates in rank order as a prefix
of the rank list — so each candidate is contacted at most once when the
rank list has no duplicates — performing exactly one provider call per
contacted candidate, and the loop emits no sleep event: the only sleep of
a cycle is the rate-limit-protection gate before the loop. -/
theorem claim10_single_pass
    (attempt : RankedModel → String × Bool) (ranking : List RankedModel)
    (time_since_last min_request_interval : Nat) :
    attemptTrace attempt ranking <+: ranking ∧
    (ranking.Nodup → (attemptTrace attempt ranking).Nodup) ∧
    loopEvents attempt ranking = (attemptTrace attempt ranking).map OrchEvent.attemptCall ∧
    cycleEvents time_since_last min_request_interval attempt ranking
      = rateLimitProtectionEvents time_since_last min_request_interval
        ++ (attemptTrace attempt ranking).map OrchEvent.attemptCall := by
  refine ⟨attemptTrace_isPrefix attempt ranking, ?_,
    loopEvents_eq_map attempt ranking, ?_⟩
  · intro h
    exact List.Nodup.sublist (attemptTrace_isPrefix attempt ranking).sublist h
  · rw [cycleEvents, loopEvents_eq_map]

/-- C10 (witness): the single-pass properties at a concrete run with a
duplicate-free two-candidate list. -/
theorem claim10_witness :
    attemptTrace rateLimitFailAttempt [modelA, modelB] <+: [modelA, modelB] ∧
    (attemptTrace rateLimitFailAttempt [modelA, modelB]).Nodup := by
  have h := claim10_single_pass rateLimitFailAttempt [modelA, modelB] 0 100
  exact ⟨h.1, h.2.1 (by decide)⟩

end StarkAI
